import Mathlib

/-!
Shallow embedding of the Military Assets Management System front-end
(session lifecycle, permission evaluator, filtered-list/pagination
controllers), translated from the TypeScript sources:

* `src/src/pages/Assets.tsx`       — assets list controller
* `src/src/pages/Transfers.tsx`    — transfers list controller + RBAC predicates
* Purchases page                   — purchases list controller + RBAC predicates
* Assignments page                 — assignments list controller + UI action gates
* AuthContext / DataContext        — session store + shared reference cache

Pure functions become Lean functions; React component state becomes explicit
state records, with effects modelled as state transformers parameterized by
the outcome of network calls.
-/

/-- The three roles of `User.role` in `AuthContext`. -/
inductive Role where
  | admin
  | base_commander
  | logistics_officer
deriving DecidableEq, Repr

/-- `User` from `AuthContext` (the authenticated principal). -/
structure User where
  id : String
  username : String
  email : String
  first_name : String
  last_name : String
  role : Role
  base_id : Option String
  is_active : Bool
  created_at : String
  updated_at : String
deriving DecidableEq, Repr

/-- Transfer statuses: `'pending' | 'approved' | 'rejected'` (Transfers.tsx). -/
inductive TransferStatus where
  | pending
  | approved
  | rejected
deriving DecidableEq, Repr

/-- `Transfer` record from Transfers.tsx. -/
structure Transfer where
  id : String
  transfer_number : String
  asset_name : String
  from_base_id : String
  from_base_name : String
  to_base_id : String
  to_base_name : String
  quantity : Nat
  status : TransferStatus
  transfer_date : String
  approved_at : Option String
  notes : Option String
  created_by : String
  created_at : String
deriving DecidableEq, Repr

/-- Purchase statuses: `'pending' | 'approved' | 'cancelled'` (Purchases page). -/
inductive PurchaseStatus where
  | pending
  | approved
  | cancelled
deriving DecidableEq, Repr

/-- The string literal a `PurchaseStatus` denotes (used where the code
compares the status against a filter string). -/
def PurchaseStatus.toStr : PurchaseStatus → String
  | .pending => "pending"
  | .approved => "approved"
  | .cancelled => "cancelled"

/-- `Purchase` record from the Purchases page. -/
structure Purchase where
  id : String
  asset_id : String
  asset_name : Option String
  base_id : String
  base_name : String
  quantity : Nat
  supplier : String
  purchase_date : String
  status : PurchaseStatus
  approved_by : Option String
  approved_at : Option String
  notes : Option String
  created_by : String
  created_at : String
deriving DecidableEq, Repr

/-- Assignment statuses (Assignments page). -/
inductive AssignmentStatus where
  | active
  | returned
  | lost
  | damaged
  | partially_returned
  | expended
deriving DecidableEq, Repr

/-- The string literal an `AssignmentStatus` denotes. -/
def AssignmentStatus.toStr : AssignmentStatus → String
  | .active => "active"
  | .returned => "returned"
  | .lost => "lost"
  | .damaged => "damaged"
  | .partially_returned => "partially_returned"
  | .expended => "expended"

/-- `Assignment` record from the Assignments page. -/
structure Assignment where
  id : String
  asset_id : String
  asset_name : String
  personnel_id : String
  personnel_name : String
  personnel_rank : String
  assigned_by : String
  base_id : String
  base_name : String
  assignment_date : String
  return_date : Option String
  status : AssignmentStatus
  quantity : Nat
  returned_quantity : Nat
  notes : Option String
  created_at : String
  expended_quantity : Nat
deriving DecidableEq, Repr

/-- `Asset` record as the Assets page sees it (status is a plain string there). -/
structure Asset where
  id : String
  name : String
  base_id : String
  current_base_name : String
  status : String
  quantity : Nat
  available_quantity : Nat
  created_at : String
  updated_at : String
deriving DecidableEq, Repr

/-! ## Permission evaluator (Transfers.tsx lines 290–316, Purchases page lines 243–268)

The page components read `user` from the auth context, where it has type
`User | null`; `user?.role` and `user?.base_id` are therefore optional
accesses, modelled with `Option.map` / `Option.bind`. -/

/-- `canApprove` from Transfers.tsx: `transfer.status === 'pending'`. -/
def canApproveTransfer (t : Transfer) : Bool :=
  decide (t.status = TransferStatus.pending)

/-- `canDelete` from Transfers.tsx: admin always; base commander for
pending/rejected transfers involving their base; otherwise false. -/
def canDeleteTransfer (user : Option User) (t : Transfer) : Bool :=
  if user.map User.role = some Role.admin then
    true
  else if user.map User.role = some Role.base_commander then
    decide ((t.status = TransferStatus.pending ∨ t.status = TransferStatus.rejected) ∧
      (some t.from_base_id = user.bind User.base_id ∨
       some t.to_base_id = user.bind User.base_id))
  else
    false

/-- `canEdit` from Transfers.tsx: admin always; base commander only for
pending transfers involving their base; otherwise false. -/
def canEditTransfer (user : Option User) (t : Transfer) : Bool :=
  if user.map User.role = some Role.admin then
    true
  else if user.map User.role = some Role.base_commander then
    decide (t.status = TransferStatus.pending ∧
      (some t.from_base_id = user.bind User.base_id ∨
       some t.to_base_id = user.bind User.base_id))
  else
    false

/-- `canApprove` from the Purchases page: `purchase.status === 'pending'`. -/
def canApprovePurchase (p : Purchase) : Bool :=
  decide (p.status = PurchaseStatus.pending)

/-- `canDelete` from the Purchases page: admin always; base commander for
pending/cancelled purchases at their base; otherwise false. -/
def canDeletePurchase (user : Option User) (p : Purchase) : Bool :=
  if user.map User.role = some Role.admin then
    true
  else if user.map User.role = some Role.base_commander then
    decide ((p.status = PurchaseStatus.pending ∨ p.status = PurchaseStatus.cancelled) ∧
      some p.base_id = user.bind User.base_id)
  else
    false

/-- `canEdit` from the Purchases page: admin always; base commander only for
pending purchases at their base; otherwise false. -/
def canEditPurchase (user : Option User) (p : Purchase) : Bool :=
  if user.map User.role = some Role.admin then
    true
  else if user.map User.role = some Role.base_commander then
    decide (p.status = PurchaseStatus.pending ∧ some p.base_id = user.bind User.base_id)
  else
    false

/-! ## Filters and list controllers

Each page holds its full collection, filter criteria, and pagination state
in component state; here each page's state is one record, and its handlers
are state transformers. -/

/-- Character-list substring containment: `pat` occurs contiguously in the
first argument. -/
def charsContain : List Char → List Char → Bool
  | [], pat => pat.isEmpty
  | c :: t, pat => pat.isPrefixOf (c :: t) || charsContain t pat

/-- JavaScript substring containment: `s.includes(pat)`. -/
def strIncludes (s pat : String) : Bool :=
  charsContain s.data pat.data

/-- Assets page filter criteria (`filters` state in Assets.tsx). -/
structure AssetFilters where
  name : String
  base_id : String
  status : String
deriving DecidableEq, Repr

/-- The per-element predicate of `filteredAssets` in Assets.tsx: a guard is
active only when its criterion string is non-empty (JS truthiness). -/
def assetKeep (f : AssetFilters) (a : Asset) : Bool :=
  if f.name ≠ "" ∧ ¬ strIncludes a.name.toLower f.name.toLower then false
  else if f.base_id ≠ "" ∧ a.base_id ≠ f.base_id then false
  else if f.status ≠ "" ∧ a.status ≠ f.status then false
  else true

/-- `filteredAssets` (Assets.tsx lines 101–108): `allAssets.filter (...)`. -/
def filteredAssets (f : AssetFilters) (allAssets : List Asset) : List Asset :=
  allAssets.filter (assetKeep f)

/-- Purchases page filter criteria. -/
structure PurchaseFilters where
  base_id : String
  start_date : String
  end_date : String
  status : String
deriving DecidableEq, Repr

/-- The per-element predicate of `filteredPurchases` (Purchases page
lines 139–147); date bounds compare date strings lexicographically. -/
def purchaseKeep (f : PurchaseFilters) (p : Purchase) : Bool :=
  if f.base_id ≠ "" ∧ p.base_id ≠ f.base_id then false
  else if f.start_date ≠ "" ∧ p.purchase_date < f.start_date then false
  else if f.end_date ≠ "" ∧ f.end_date < p.purchase_date then false
  else if f.status ≠ "" ∧ p.status.toStr ≠ f.status then false
  else true

/-- `filteredPurchases`: `allPurchases.filter (...)`. -/
def filteredPurchases (f : PurchaseFilters) (allPurchases : List Purchase) : List Purchase :=
  allPurchases.filter (purchaseKeep f)

/-- Assignments page filter criteria. -/
structure AssignmentFilters where
  base_id : String
  status : String
  asset_id : String
  personnel_id : String
deriving DecidableEq, Repr

/-- The per-element predicate of `filteredAssignments` (Assignments page
lines 243–251). -/
def assignmentKeep (f : AssignmentFilters) (a : Assignment) : Bool :=
  if f.base_id ≠ "" ∧ a.base_id ≠ f.base_id then false
  else if f.status ≠ "" ∧ a.status.toStr ≠ f.status then false
  else if f.asset_id ≠ "" ∧ a.asset_id ≠ f.asset_id then false
  else if f.personnel_id ≠ "" ∧ a.personnel_id ≠ f.personnel_id then false
  else true

/-- `filteredAssignments`: `allAssignments.filter (...)`. -/
def filteredAssignments (f : AssignmentFilters) (allAssignments : List Assignment) :
    List Assignment :=
  allAssignments.filter (assignmentKeep f)

/-- Transfers page filter criteria (sent to the server as query params). -/
structure TransferFilters where
  from_base_id : String
  to_base_id : String
  asset_name : String
  status : String
  start_date : String
  end_date : String
deriving DecidableEq, Repr

/-! ### Pagination

Each client-side page computes
`filtered.slice(page * rowsPerPage, page * rowsPerPage + rowsPerPage)`;
`Array.prototype.slice(start, stop)` is `drop start` of `take stop`,
i.e. `take rowsPerPage` of `drop start`. -/

/-- `paginatedAssets` (Assets.tsx lines 110–114). -/
def paginatedAssets (filtered : List Asset) (page rowsPerPage : Nat) : List Asset :=
  (filtered.drop (page * rowsPerPage)).take rowsPerPage

/-- `paginatedPurchases` (Purchases page lines 150–153). -/
def paginatedPurchases (filtered : List Purchase) (page rowsPerPage : Nat) : List Purchase :=
  (filtered.drop (page * rowsPerPage)).take rowsPerPage

/-- `paginatedAssignments` (Assignments page lines 254–258). -/
def paginatedAssignments (filtered : List Assignment) (page rowsPerPage : Nat) :
    List Assignment :=
  (filtered.drop (page * rowsPerPage)).take rowsPerPage

/-! ### Page component state and handlers -/

/-- Assets page component state. -/
structure AssetsState where
  allAssets : List Asset
  loading : Bool
  error : String
  page : Nat
  rowsPerPage : Nat
  filters : AssetFilters
deriving Repr

/-- Purchases page component state. -/
structure PurchasesState where
  allPurchases : List Purchase
  loading : Bool
  error : String
  page : Nat
  rowsPerPage : Nat
  filters : PurchaseFilters
deriving Repr

/-- Transfers page component state (server-side pagination, so it also
tracks the server-reported total). -/
structure TransfersState where
  transfers : List Transfer
  loading : Bool
  error : String
  page : Nat
  rowsPerPage : Nat
  total : Nat
  filters : TransferFilters
deriving Repr

/-- Assignments page component state. -/
structure AssignmentsState where
  allAssignments : List Assignment
  loading : Bool
  error : String
  page : Nat
  rowsPerPage : Nat
  filters : AssignmentFilters
deriving Repr

/-- `handleFiltersChange` in Assets.tsx (lines 180–189): replaces the filter
criteria (`filters.base_id || ''`, clearing name/status) and resets the page
to 0. -/
def assetsHandleFiltersChange (s : AssetsState) (base_id : String) : AssetsState :=
  { s with
    filters := { base_id := if base_id = "" then "" else base_id, name := "", status := "" }
    page := 0 }

/-- `handleFiltersChange` in the Purchases page (lines 270–279): replaces
the filter criteria; it does NOT touch the page index. -/
def purchasesHandleFiltersChange (s : PurchasesState) (base_id : String) : PurchasesState :=
  { s with
    filters := { base_id := base_id, start_date := "", end_date := "", status := "" } }

/-- `handleFiltersChange` in Transfers.tsx (lines 318–325): updates only
`from_base_id` (spreading the previous criteria); it does NOT touch the
page index. -/
def transfersHandleFiltersChange (s : TransfersState) (base_id : String) : TransfersState :=
  { s with filters := { s.filters with from_base_id := base_id } }

/-- `handleFiltersChange` in the Assignments page (lines 355–365): replaces
the filter criteria; it does NOT touch the page index. -/
def assignmentsHandleFiltersChange (s : AssignmentsState) (base_id : String) :
    AssignmentsState :=
  { s with
    filters := { base_id := base_id, status := "", asset_id := "", personnel_id := "" } }

/-- `Expenditure` record from the Expenditures component (staged after the
Transfers component in Transfers.tsx, lines 634–650). -/
structure Expenditure where
  id : String
  asset_name : String
  base_id : String
  base_name : String
  personnel_id : Option String
  personnel_first_name : Option String
  personnel_last_name : Option String
  personnel_rank : Option String
  quantity : Nat
  expenditure_date : String
  reason : String
  authorized_by : String
  notes : Option String
  created_by : String
  created_at : String
deriving DecidableEq, Repr

/-- Expenditures page filter criteria (sent to the server as query params). -/
structure ExpenditureFilters where
  base_id : String
  start_date : String
  end_date : String
deriving DecidableEq, Repr

/-- Expenditures page component state (server-side pagination, so it also
tracks the server-reported total). -/
structure ExpendituresState where
  expenditures : List Expenditure
  loading : Bool
  error : String
  page : Nat
  rowsPerPage : Nat
  total : Nat
  filters : ExpenditureFilters
deriving Repr

/-- `handleFiltersChange` in the Expenditures component (Transfers.tsx lines
718–727): replaces the filter criteria (`filters.base_id || ''`, clearing the
date bounds) and resets the page to 0. -/
def expendituresHandleFiltersChange (s : ExpendituresState) (base_id : String) :
    ExpendituresState :=
  { s with
    filters :=
      { base_id := if base_id = "" then "" else base_id, start_date := "", end_date := "" }
    page := 0 }

/-! ### Fetch effects

A network call either resolves with data or rejects; a rejection carries an
optional HTTP status and an optional structured error payload
(`err.response?.data?.error`). -/

/-- Outcome of an awaited HTTP call. -/
inductive FetchResult (α : Type) where
  | ok (data : α)
  | err (status : Option Nat) (payload : Option String)

/-- JavaScript `x || fallback` on an optional string payload: the fallback
is used when the payload is missing or empty (falsy). -/
def jsOrElse (payload : Option String) (fallback : String) : String :=
  match payload with
  | some e => if e = "" then fallback else e
  | none => fallback

/-- `fetchAllAssets` (Assets.tsx lines 84–94) as a state transformer over the
final component state: on success it replaces `allAssets`; on failure it sets
the error string and leaves `allAssets` alone; `loading` ends false either
way (the `finally` block). -/
def fetchAllAssets (s : AssetsState) (r : FetchResult (List Asset)) : AssetsState :=
  match r with
  | .ok data => { s with allAssets := data, loading := false }
  | .err _ payload =>
      { s with error := jsOrElse payload "Failed to fetch assets", loading := false }

/-- `fetchAllPurchases` (Purchases page lines 112–122). -/
def fetchAllPurchases (s : PurchasesState) (r : FetchResult (List Purchase)) :
    PurchasesState :=
  match r with
  | .ok data => { s with allPurchases := data, loading := false }
  | .err _ payload =>
      { s with error := jsOrElse payload "Failed to fetch purchases", loading := false }

/-- `fetchAllAssignments` (Assignments page lines 140–150). -/
def fetchAllAssignments (s : AssignmentsState) (r : FetchResult (List Assignment)) :
    AssignmentsState :=
  match r with
  | .ok data => { s with allAssignments := data, loading := false }
  | .err _ payload =>
      { s with error := jsOrElse payload "Failed to fetch assignments", loading := false }

/-! ## Session store (`AuthContext`)

`localStorage` holds the two persisted tokens; the axios default
`Authorization` header is the outbound default credential; `user` is the
principal. Each context operation becomes a state transformer, with the
outcome of its network call passed as a `FetchResult`. -/

/-- The two persisted tokens (localStorage keys `token` / `refreshToken`). -/
structure Storage where
  token : Option String
  refreshToken : Option String
deriving DecidableEq, Repr

/-- Whole session-store state: persisted tokens, outbound default
`Authorization` header, principal, and the startup `loading` flag. -/
structure AuthState where
  storage : Storage
  authHeader : Option String
  user : Option User
  loading : Bool
deriving DecidableEq, Repr

/-- State at provider mount: `user = null`, `loading = true`, whatever was
persisted in storage, and the first effect installing `Bearer <token>` as
the default header when a token is persisted (AuthContext lines 343–348). -/
def initialAuthState (persisted : Storage) : AuthState :=
  { storage := persisted
    authHeader := persisted.token.map (fun t => "Bearer " ++ t)
    user := none
    loading := true }

/-- `login` (AuthContext lines 371–392): on success stores both tokens, sets
the default header and the principal; on failure nothing was mutated (the
error is rethrown as `Login failed`/server message). -/
def login (s : AuthState) (r : FetchResult (User × String × String)) : AuthState :=
  match r with
  | .ok (userData, token, refreshTok) =>
      { s with
        storage := { token := some token, refreshToken := some refreshTok }
        authHeader := some ("Bearer " ++ token)
        user := some userData }
  | .err _ _ => s

/-- `logout` (AuthContext lines 395–400): removes both persisted tokens,
deletes the default header, sets the principal to `null`. Pure state update,
no request. -/
def logout (s : AuthState) : AuthState :=
  { s with
    storage := { token := none, refreshToken := none }
    authHeader := none
    user := none }

/-- `checkAuth` (AuthContext lines 351–368), the startup session restore:
with a persisted token it fetches the profile; success sets the principal,
failure removes both tokens and the header (leaving the principal as it
was); without a token nothing happens. Either way `loading` ends false. -/
def checkAuth (s : AuthState) (profile : FetchResult User) : AuthState :=
  match s.storage.token with
  | some _ =>
      (match profile with
       | .ok u => { s with user := some u, loading := false }
       | .err _ _ =>
           { s with
             storage := { token := none, refreshToken := none }
             authHeader := none
             loading := false })
  | none => { s with loading := false }

/-- `refreshToken` (AuthContext lines 403–423): with no persisted refresh
token, or on a failed exchange, it runs `logout` (and rethrows); on success
it stores the new access token and updates the header. -/
def refreshTokenOp (s : AuthState) (r : FetchResult String) : AuthState :=
  match s.storage.refreshToken with
  | none => logout s
  | some _ =>
      match r with
      | .ok token =>
          { s with
            storage := { s.storage with token := some token }
            authHeader := some ("Bearer " ++ token) }
      | .err _ _ => logout s

/-- The §3 credential invariant: if the persisted access token is absent the
principal is `null`. -/
def authInv (s : AuthState) : Prop :=
  s.storage.token = none → s.user = none

/-- Session-store states reachable in the program: the mount state (for any
persisted storage), the state after the one startup `checkAuth`, and
anything reachable from those through `login` / `logout` / `refreshToken`. -/
inductive ReachableAuth : AuthState → Prop where
  | start (persisted : Storage) : ReachableAuth (initialAuthState persisted)
  | restore (persisted : Storage) (profile : FetchResult User) :
      ReachableAuth (checkAuth (initialAuthState persisted) profile)
  | login_step (s : AuthState) (r : FetchResult (User × String × String)) :
      ReachableAuth s → ReachableAuth (login s r)
  | logout_step (s : AuthState) : ReachableAuth s → ReachableAuth (logout s)
  | refresh_step (s : AuthState) (r : FetchResult String) :
      ReachableAuth s → ReachableAuth (refreshTokenOp s r)

/-! ## Shared reference cache (`DataContext`) -/

/-- `Base` reference entity (DataContext). -/
structure Base where
  id : String
  name : String
  code : String
deriving DecidableEq, Repr

/-- `AssetType` reference entity (DataContext). -/
structure AssetType where
  id : String
  name : String
deriving DecidableEq, Repr

/-- `Asset` as cached by DataContext (different fields from the Assets
page's own record). -/
structure CacheAsset where
  id : String
  name : String
  base_id : String
  quantity : Nat
  available_quantity : Nat
  assigned_quantity : Nat
  status : String
  created_at : String
deriving DecidableEq, Repr

/-- DataContext state: the three cached collections plus loading/error. -/
structure DataState where
  bases : List Base
  assetTypes : List AssetType
  assets : List CacheAsset
  loading : Bool
  error : Option String
deriving DecidableEq, Repr

/-- `fetchBases` in DataContext (lines 209–222): success replaces the
collection and clears the error; failure sets a message that depends on
whether the status was 401, leaving the collection alone. -/
def fetchBasesCache (d : DataState) (r : FetchResult (List Base)) : DataState :=
  match r with
  | .ok bs => { d with bases := bs, error := none }
  | .err status _ =>
      if status = some 401 then { d with error := some "Authentication required. Please log in." }
      else { d with error := some "Failed to fetch bases" }

/-- `fetchAssetTypes` in DataContext (lines 224–237). -/
def fetchAssetTypesCache (d : DataState) (r : FetchResult (List AssetType)) : DataState :=
  match r with
  | .ok ts => { d with assetTypes := ts, error := none }
  | .err status _ =>
      if status = some 401 then { d with error := some "Authentication required. Please log in." }
      else { d with error := some "Failed to fetch asset types" }

/-- `fetchAssets` in DataContext (lines 239–252). -/
def fetchAssetsCache (d : DataState) (r : FetchResult (List CacheAsset)) : DataState :=
  match r with
  | .ok as => { d with assets := as, error := none }
  | .err status _ =>
      if status = some 401 then { d with error := some "Authentication required. Please log in." }
      else { d with error := some "Failed to fetch assets" }

/-- The `initializeData` effect of DataContext (lines 266–286), which runs
whenever the principal or the auth-loading flag changes: while auth is
loading it does nothing; with a principal it runs the three fetches and ends
with `loading := false`; with no principal it synchronously empties the
three collections. -/
def initializeData (auth : AuthState) (d : DataState)
    (rb : FetchResult (List Base)) (rt : FetchResult (List AssetType))
    (ra : FetchResult (List CacheAsset)) : DataState :=
  if auth.loading then d
  else
    match auth.user with
    | some _ =>
        { fetchAssetsCache (fetchAssetTypesCache (fetchBasesCache d rb) rt) ra with
          loading := false }
    | none => { d with loading := false, bases := [], assetTypes := [], assets := [] }

/-! ## Assignments page action gating (Assignments page lines 466–474, 520–548)

The Assignments screen does not define `canEdit`/`canDelete`/`canApprove`;
its action buttons are rendered with only the inline conditions below. -/

/-- The Edit button in every Assignments table row is rendered with no
condition at all: offered for every principal and every record. -/
def assignmentEditShown (_user : Option User) (_a : Assignment) : Bool :=
  true

/-- The Delete button in every Assignments table row is always rendered but
carries `disabled={user?.role === 'logistics_officer'}`; this is the
disabling condition. -/
def assignmentDeleteDisabled (user : Option User) : Bool :=
  decide (user.map User.role = some Role.logistics_officer)

/-- The Expend button is rendered iff `assignment.status !== 'expended'`. -/
def assignmentExpendShown (a : Assignment) : Bool :=
  decide (a.status ≠ AssignmentStatus.expended)

/-! ## Concrete sample values (used to instantiate theorems with hypotheses) -/

/-- A sample asset row. -/
def demoAsset (i : String) : Asset :=
  { id := i, name := "rifle", base_id := "b1", current_base_name := "Fort Bragg"
    status := "available", quantity := 10, available_quantity := 5
    created_at := "2024-01-01", updated_at := "2024-01-02" }

/-- A three-element asset collection. -/
def demoAssets : List Asset :=
  [demoAsset "a1", demoAsset "a2", demoAsset "a3"]

/-- A sample purchase row. -/
def demoPurchase : Purchase :=
  { id := "p1", asset_id := "a1", asset_name := some "rifle", base_id := "b1"
    base_name := "Fort Bragg", quantity := 4, supplier := "ACME"
    purchase_date := "2024-02-01", status := PurchaseStatus.pending
    approved_by := none, approved_at := none, notes := none
    created_by := "u1", created_at := "2024-02-01" }

/-- A sample assignment row. -/
def demoAssignment : Assignment :=
  { id := "g1", asset_id := "a1", asset_name := "rifle", personnel_id := "per1"
    personnel_name := "J. Price", personnel_rank := "CPT", assigned_by := "u1"
    base_id := "b1", base_name := "Fort Bragg", assignment_date := "2024-03-01"
    return_date := none, status := AssignmentStatus.active, quantity := 2
    returned_quantity := 0, notes := none, created_at := "2024-03-01"
    expended_quantity := 0 }

/-- A sample Assets page state. -/
def demoAssetsState : AssetsState :=
  { allAssets := demoAssets, loading := true, error := "", page := 0
    rowsPerPage := 10, filters := { name := "", base_id := "", status := "" } }

/-- A sample Purchases page state sitting on page 3. -/
def demoPurchasesState : PurchasesState :=
  { allPurchases := [demoPurchase], loading := false, error := "", page := 3
    rowsPerPage := 10
    filters := { base_id := "", start_date := "", end_date := "", status := "" } }

/-- A sample Assignments page state. -/
def demoAssignmentsState : AssignmentsState :=
  { allAssignments := [demoAssignment], loading := false, error := "", page := 0
    rowsPerPage := 10
    filters := { base_id := "", status := "", asset_id := "", personnel_id := "" } }

/-- A sample authenticated principal. -/
def demoUser : User :=
  { id := "u1", username := "price", email := "price@military.gov"
    first_name := "John", last_name := "Price", role := Role.base_commander
    base_id := some "b1", is_active := true
    created_at := "2024-01-01", updated_at := "2024-01-01" }

/-- A sample authenticated session-store state (startup finished). -/
def demoAuthState : AuthState :=
  { storage := { token := some "tok", refreshToken := some "ref" }
    authHeader := some "Bearer tok", user := some demoUser, loading := false }

/-- A sample populated reference cache. -/
def demoDataState : DataState :=
  { bases := [{ id := "b1", name := "Fort Bragg", code := "FB" }]
    assetTypes := [{ id := "t1", name := "Weapon" }]
    assets := []
    loading := false, error := none }

/-! ## Theorems -/

/-- C1. For every authenticated principal and every record (transfer or
purchase), `canEdit` returns true when the principal's role is admin; when
the role is `base_commander` it returns true iff the record's status is
`pending` and the principal's `base_id` matches one of the record's base
references (transfers: `from_base_id` or `to_base_id`; purchases:
`base_id`); for every other role it returns false. -/
theorem canEdit_truth_table (u : User) (t : Transfer) (p : Purchase) :
    (canEditTransfer (some u) t = true ↔
      u.role = Role.admin ∨
        (u.role = Role.base_commander ∧ t.status = TransferStatus.pending ∧
          (u.base_id = some t.from_base_id ∨ u.base_id = some t.to_base_id))) ∧
    (canEditPurchase (some u) p = true ↔
      u.role = Role.admin ∨
        (u.role = Role.base_commander ∧ p.status = PurchaseStatus.pending ∧
          u.base_id = some p.base_id)) := by
  constructor
  · cases hr : u.role <;> simp [canEditTransfer, hr, @eq_comm _ u.base_id]
  · cases hr : u.role <;> simp [canEditPurchase, hr, @eq_comm _ u.base_id]

/-- C2. For every authenticated principal and every record (transfer or
purchase), `canDelete` returns true when the role is admin; for a
`base_commander` it returns true iff the record's status is in the open set
(transfers: pending or rejected; purchases: pending or cancelled) and the
principal's `base_id` matches one of the record's base references; for every
other role it returns false. -/
theorem canDelete_truth_table (u : User) (t : Transfer) (p : Purchase) :
    (canDeleteTransfer (some u) t = true ↔
      u.role = Role.admin ∨
        (u.role = Role.base_commander ∧
          (t.status = TransferStatus.pending ∨ t.status = TransferStatus.rejected) ∧
          (u.base_id = some t.from_base_id ∨ u.base_id = some t.to_base_id))) ∧
    (canDeletePurchase (some u) p = true ↔
      u.role = Role.admin ∨
        (u.role = Role.base_commander ∧
          (p.status = PurchaseStatus.pending ∨ p.status = PurchaseStatus.cancelled) ∧
          u.base_id = some p.base_id)) := by
  constructor
  · cases hr : u.role <;> simp [canDeleteTransfer, hr, @eq_comm _ u.base_id]
  · cases hr : u.role <;> simp [canDeletePurchase, hr, @eq_comm _ u.base_id]

/-- C3. For every record (transfer or purchase), `canApprove` returns true
iff the record's status equals `pending`; the predicate takes no principal
at all, so it imposes no role restriction (role gating happens at the call
site). -/
theorem canApprove_pending_only (t : Transfer) (p : Purchase) :
    (canApproveTransfer t = true ↔ t.status = TransferStatus.pending) ∧
    (canApprovePurchase p = true ↔ p.status = PurchaseStatus.pending) := by
  constructor
  · simp [canApproveTransfer]
  · simp [canApprovePurchase]

/-- C10. On the Assignments screen the action affordances ignore the
permission-evaluator predicates: the edit button is offered for every role
and every record; the delete button is disabled exactly for
`logistics_officer` (regardless of status or base); the expend button is
offered iff the record's status is not `expended`. -/
theorem assignments_action_gating (u : User) (a : Assignment) :
    assignmentEditShown (some u) a = true ∧
    (assignmentDeleteDisabled (some u) = true ↔ u.role = Role.logistics_officer) ∧
    (assignmentExpendShown a = true ↔ a.status ≠ AssignmentStatus.expended) := by
  refine ⟨rfl, ?_, ?_⟩
  · simp [assignmentDeleteDisabled]
  · simp [assignmentExpendShown]

/-- C5. Applying a client-side list filter with all criteria empty returns
the full collection unchanged, and for any criteria the filter is a pure
function whose output is a sublist of the input (source order preserved),
for each of the three client-side-filtered collections (assets, purchases,
assignments). -/
theorem filter_empty_identity (la : List Asset) (lp : List Purchase)
    (lg : List Assignment) (fa : AssetFilters) (fp : PurchaseFilters)
    (fg : AssignmentFilters) :
    filteredAssets { name := "", base_id := "", status := "" } la = la ∧
    filteredPurchases { base_id := "", start_date := "", end_date := "", status := "" } lp
      = lp ∧
    filteredAssignments
      { base_id := "", status := "", asset_id := "", personnel_id := "" } lg = lg ∧
    List.Sublist (filteredAssets fa la) la ∧
    List.Sublist (filteredPurchases fp lp) lp ∧
    List.Sublist (filteredAssignments fg lg) lg := by
  refine ⟨?_, ?_, ?_, List.filter_sublist la, List.filter_sublist lp,
    List.filter_sublist lg⟩
  · exact List.filter_eq_self.mpr (fun a _ => by simp [assetKeep])
  · exact List.filter_eq_self.mpr (fun p _ => by simp [purchaseKeep])
  · exact List.filter_eq_self.mpr (fun g _ => by simp [assignmentKeep])

/-- Dropping past page `p+1` of size `s` is dropping page `p` of the list
with its first `s` elements removed. -/
theorem drop_succ_page {α : Type} (l : List α) (p s : Nat) :
    (l.drop (p.succ * s)).take s = ((l.drop s).drop (p * s)).take s := by
  rw [List.drop_drop, Nat.succ_mul, Nat.add_comm (p * s) s, Nat.add_comm]

/-- Concatenating the `drop`/`take` windows of width `s` over pages
`0, …, n-1` rebuilds the whole list, provided `n` pages cover it. -/
theorem window_join {α : Type} (s : Nat) :
    ∀ (n : Nat) (l : List α), l.length ≤ n * s →
      ((List.range n).map (fun p => (l.drop (p * s)).take s)).flatten = l := by
  intro n
  induction n with
  | zero =>
      intro l h
      simp only [Nat.zero_mul, Nat.le_zero] at h
      simp [List.eq_nil_of_length_eq_zero h]
  | succ n ih =>
      intro l h
      rw [List.range_succ_eq_map]
      simp only [List.map_cons, List.map_map, List.flatten_cons, Nat.zero_mul,
        List.drop_zero]
      have hcomp : ((fun p => (l.drop (p * s)).take s) ∘ Nat.succ)
          = fun p => ((l.drop s).drop (p * s)).take s := by
        funext p
        exact drop_succ_page l p s
      rw [hcomp, ih (l.drop s) ?_]
      · exact List.take_append_drop s l
      · rw [List.length_drop]
        rw [Nat.succ_mul] at h
        exact Nat.sub_le_iff_le_add.mpr h

/-- C6. For every filtered collection and page size `s > 0`, the pages
produced by the slice `paginate(filtered, p, s)` concatenate (over
`p = 0, …, n-1`, for any page count `n` covering the collection) to exactly
the filtered collection; the page lengths sum to the collection's length;
each page has length at most `s`; and re-applying the slice to a produced
page (at page 0 with the same size) returns the page unchanged — for the
three client-side paginated collections. -/
theorem paginate_partition (la : List Asset) (lp : List Purchase)
    (lg : List Assignment) (s n p : Nat) (_hs : 0 < s)
    (ha : la.length ≤ n * s) (hp : lp.length ≤ n * s) (hg : lg.length ≤ n * s) :
    (((List.range n).map (fun i => paginatedAssets la i s)).flatten = la ∧
      ((List.range n).map (fun i => (paginatedAssets la i s).length)).sum = la.length ∧
      (paginatedAssets la p s).length ≤ s ∧
      paginatedAssets (paginatedAssets la p s) 0 s = paginatedAssets la p s) ∧
    (((List.range n).map (fun i => paginatedPurchases lp i s)).flatten = lp ∧
      ((List.range n).map (fun i => (paginatedPurchases lp i s).length)).sum = lp.length ∧
      (paginatedPurchases lp p s).length ≤ s ∧
      paginatedPurchases (paginatedPurchases lp p s) 0 s = paginatedPurchases lp p s) ∧
    (((List.range n).map (fun i => paginatedAssignments lg i s)).flatten = lg ∧
      ((List.range n).map (fun i => (paginatedAssignments lg i s).length)).sum
        = lg.length ∧
      (paginatedAssignments lg p s).length ≤ s ∧
      paginatedAssignments (paginatedAssignments lg p s) 0 s
        = paginatedAssignments lg p s) := by
  have key : ∀ {α : Type} (l : List α), l.length ≤ n * s →
      (((List.range n).map (fun i => (l.drop (i * s)).take s)).flatten = l ∧
        ((List.range n).map (fun i => ((l.drop (i * s)).take s).length)).sum = l.length ∧
        ((l.drop (p * s)).take s).length ≤ s ∧
        (((l.drop (p * s)).take s).drop (0 * s)).take s = (l.drop (p * s)).take s) := by
    intro α l h
    have hj := window_join s n l h
    refine ⟨hj, ?_, List.length_take_le s _, ?_⟩
    · have := congrArg List.length hj
      rw [List.length_flatten, List.map_map] at this
      simpa only [Function.comp] using this
    · rw [Nat.zero_mul, List.drop_zero]
      exact List.take_of_length_le (List.length_take_le s _)
  exact ⟨key la ha, key lp hp, key lg hg⟩

/-- C6 witness: instantiating the pagination partition theorem on concrete
collections, page size 2 and page count 2. -/
theorem paginate_partition_witness :
    ((List.range 2).map (fun i => paginatedAssets demoAssets i 2)).flatten
      = demoAssets :=
  ((paginate_partition demoAssets [demoPurchase] [demoAssignment] 2 2 0
      (by decide) (by decide) (by decide) (by decide)).1).1

/-- C4 counterexample: the claim says every record-list controller resets
the page index to 0 whenever a filter criterion changes, but on the
Purchases page `handleFiltersChange` applies a genuinely new `base_id`
criterion from page 3 and leaves the page index at 3. -/
theorem page_reset_cex :
    (purchasesHandleFiltersChange demoPurchasesState "b9").filters
        ≠ demoPurchasesState.filters ∧
    (purchasesHandleFiltersChange demoPurchasesState "b9").page ≠ 0 := by
  constructor
  · decide
  · decide

/-- C4 amended: the Assets and Expenditures controllers reset the page index
to 0 when their filter criteria change; the Purchases, Transfers and
Assignments filter-change handlers leave the page index unchanged. -/
theorem page_reset_amended (sa : AssetsState) (sp : PurchasesState)
    (st : TransfersState) (sg : AssignmentsState) (se : ExpendituresState)
    (b : String) :
    (assetsHandleFiltersChange sa b).page = 0 ∧
    (expendituresHandleFiltersChange se b).page = 0 ∧
    (purchasesHandleFiltersChange sp b).page = sp.page ∧
    (transfersHandleFiltersChange st b).page = st.page ∧
    (assignmentsHandleFiltersChange sg b).page = sg.page :=
  ⟨rfl, rfl, rfl, rfl, rfl⟩

/-- C7. When a record-list controller's load fails, the controller sets its
error string — the server's structured payload when present and non-empty,
else a per-resource fallback — and the previously loaded in-memory
collection is left unchanged (for the assets, purchases and assignments
controllers). -/
theorem load_failure_preserves_data (sa : AssetsState) (sp : PurchasesState)
    (sg : AssignmentsState) (st : Option Nat) (payload : Option String)
    (e : String) :
    ((fetchAllAssets sa (FetchResult.err st payload)).allAssets = sa.allAssets ∧
      (e ≠ "" → (fetchAllAssets sa (FetchResult.err st (some e))).error = e) ∧
      (fetchAllAssets sa (FetchResult.err st none)).error = "Failed to fetch assets") ∧
    ((fetchAllPurchases sp (FetchResult.err st payload)).allPurchases
        = sp.allPurchases ∧
      (e ≠ "" → (fetchAllPurchases sp (FetchResult.err st (some e))).error = e) ∧
      (fetchAllPurchases sp (FetchResult.err st none)).error
        = "Failed to fetch purchases") ∧
    ((fetchAllAssignments sg (FetchResult.err st payload)).allAssignments
        = sg.allAssignments ∧
      (e ≠ "" → (fetchAllAssignments sg (FetchResult.err st (some e))).error = e) ∧
      (fetchAllAssignments sg (FetchResult.err st none)).error
        = "Failed to fetch assignments") := by
  refine ⟨⟨rfl, fun he => ?_, rfl⟩, ⟨rfl, fun he => ?_, rfl⟩, ⟨rfl, fun he => ?_, rfl⟩⟩
  · simp [fetchAllAssets, jsOrElse, he]
  · simp [fetchAllPurchases, jsOrElse, he]
  · simp [fetchAllAssignments, jsOrElse, he]

/-- C7 witness: a failed assets load with server payload `"boom"` reports
`"boom"` (and, per the theorem, keeps the collection). -/
theorem load_failure_preserves_data_witness :
    (fetchAllAssets demoAssetsState (FetchResult.err none (some "boom"))).error
      = "boom" :=
  ((load_failure_preserves_data demoAssetsState demoPurchasesState
      demoAssignmentsState none none "boom").1).2.1 (by decide)

/-- C8. After `logout()` completes (a pure state update, no request), both
persisted tokens are gone, the outbound default Authorization credential is
cleared, the principal is `null`, and — once the reference cache's effect
reacts to the now-null principal (auth startup already finished) — its three
collections are empty, whatever the outcomes of any fetches would be. -/
theorem logout_clears_everything (a : AuthState) (d : DataState)
    (rb : FetchResult (List Base)) (rt : FetchResult (List AssetType))
    (ra : FetchResult (List CacheAsset)) (h : a.loading = false) :
    (logout a).storage.token = none ∧
    (logout a).storage.refreshToken = none ∧
    (logout a).authHeader = none ∧
    (logout a).user = none ∧
    (initializeData (logout a) d rb rt ra).bases = [] ∧
    (initializeData (logout a) d rb rt ra).assetTypes = [] ∧
    (initializeData (logout a) d rb rt ra).assets = [] := by
  refine ⟨rfl, rfl, rfl, rfl, ?_, ?_, ?_⟩ <;> simp [initializeData, logout, h]

/-- C8 witness: logging out of a concrete authenticated session empties the
asset cache (the other conjuncts are instantiated the same way). -/
theorem logout_clears_everything_witness :
    (initializeData (logout demoAuthState) demoDataState
        (FetchResult.err none none) (FetchResult.err none none)
        (FetchResult.err none none)).assets = [] :=
  (logout_clears_everything demoAuthState demoDataState
      (FetchResult.err none none) (FetchResult.err none none)
      (FetchResult.err none none) rfl).2.2.2.2.2.2

/-- `login` preserves the credential invariant on success and failure. -/
theorem authInv_login (s : AuthState) (r : FetchResult (User × String × String))
    (h : authInv s) : authInv (login s r) := by
  cases r with
  | ok d =>
      obtain ⟨u, tok, rtok⟩ := d
      intro hc
      simp [login] at hc
  | err st pl => exact h

/-- `logout` establishes the credential invariant outright. -/
theorem authInv_logout (s : AuthState) : authInv (logout s) := by
  intro _
  rfl

/-- The startup `checkAuth` preserves the credential invariant from any
state whose principal is still `null` (as at mount), on both the success
and the failure path of the profile fetch. -/
theorem authInv_checkAuth (s : AuthState) (hu : s.user = none)
    (profile : FetchResult User) : authInv (checkAuth s profile) := by
  unfold authInv checkAuth
  cases htok : s.storage.token <;> cases profile <;> simp [htok, hu]

/-- `refreshToken` preserves the credential invariant on success and on both
failure paths (missing refresh token, failed exchange). -/
theorem authInv_refresh (s : AuthState) (r : FetchResult String) :
    authInv (refreshTokenOp s r) := by
  unfold refreshTokenOp
  cases htok : s.storage.refreshToken with
  | none => exact authInv_logout s
  | some t =>
      cases r with
      | ok tok =>
          intro hc
          simp at hc
      | err st pl => exact authInv_logout s

/-- C9. The invariant "if the persisted access token is absent then the
principal is `null`" holds in the mount state and in every session-store
state reachable through the startup restore (`checkAuth`), `login`,
`logout` and `refreshToken`, on their success and failure paths alike. -/
theorem auth_token_invariant (s : AuthState) (h : ReachableAuth s) : authInv s := by
  induction h with
  | start persisted => intro _; rfl
  | restore persisted profile => exact authInv_checkAuth _ rfl profile
  | login_step s r _ ih => exact authInv_login s r ih
  | logout_step s _ _ => exact authInv_logout s
  | refresh_step s r _ _ => exact authInv_refresh s r

/-- C9 witness: the invariant holds after mounting with persisted tokens and
then logging out. -/
theorem auth_token_invariant_witness :
    authInv (logout (initialAuthState { token := some "t0", refreshToken := some "r0" })) :=
  auth_token_invariant
    (logout (initialAuthState { token := some "t0", refreshToken := some "r0" }))
    (ReachableAuth.logout_step _ (ReachableAuth.start _))
